import Mathlib

/-!
Verification of the multi-color 3MF exporter (src/export_3mf.py).

The development shallowly embeds the exporter's computations in Lean:
real arithmetic is idealized over the rationals, Python integers are
modelled as unbounded integers, Python exceptions as an error type
returned through Except, the XML document as an inductive tree, and the
file-system side effects of the pipeline as an explicit operation trace.
External collaborators (build123d STL export, lib3mf reading/writing,
ElementTree parsing/serialization) are parameters of the embedding.
-/

/-- Vertex with three rational coordinates, mirroring the lib3mf
Position record whose Coordinates array is indexed 0..2; only the z
coordinate (index 2) is used by the color assignment. -/
structure Vertex where
  x : ℚ
  y : ℚ
  z : ℚ
deriving DecidableEq

instance : Inhabited Vertex := ⟨⟨0, 0, 0⟩⟩

/-- Triangle as three 0-based vertex indices, mirroring the lib3mf
Triangle record's Indices array. -/
structure Tri where
  i0 : ℕ
  i1 : ℕ
  i2 : ℕ
deriving DecidableEq

instance : Inhabited Tri := ⟨⟨0, 0, 0⟩⟩

/-- Errors of the embedded code.  The constructors valueError,
zeroDivisionError, runtimeError, keyError and xmlParseError model the
Python exceptions the source can actually raise.  The constructors
configurationError and invalidColorError are the error names of the
design's taxonomy (spec section 7); they are included so that claims
mentioning them can be stated, and the embedded code never produces
them. -/
inductive PyErr where
  | valueError (msg : String)
  | zeroDivisionError
  | runtimeError (msg : String)
  | keyError (key : String)
  | xmlParseError
  | configurationError
  | invalidColorError (entry : String)
deriving DecidableEq

/-- Python's int() applied to a rational: truncation toward zero
(floor for non-negative arguments, ceiling for negative ones). -/
def pyInt (q : ℚ) : ℤ := if 0 ≤ q then ⌊q⌋ else ⌈q⌉

/-- List indexing as vertices[i]; valid meshes never index out of
range (Triangle invariant), so the default value is never produced in
the uses covered by the theorems below. -/
def vtxAt (vertices : List Vertex) (i : ℕ) : Vertex :=
  vertices.getD i default

/-- Centroid Z of a triangle: mean of its three vertices' z
coordinates, as computed in _compute_tri_colors (line 75). -/
def centroidZ (vertices : List Vertex) (t : Tri) : ℚ :=
  ((vtxAt vertices t.i0).z + (vtxAt vertices t.i1).z + (vtxAt vertices t.i2).z) / 3

/-- Layer index of a triangle: layer_idx = int(z / layer_height)
(line 76).  Python's int() truncates toward zero. -/
def triLayerIdx (vertices : List Vertex) (layer_height : ℚ) (t : Tri) : ℤ :=
  pyInt (centroidZ vertices t / layer_height)

/-- Color index of a triangle: layer_idx % num_colors (line 77).
Python's % on integers is floor-division remainder, i.e. Int.fmod. -/
def triColor (vertices : List Vertex) (layer_height : ℚ) (num_colors : ℕ) (t : Tri) : ℤ :=
  Int.fmod (triLayerIdx vertices layer_height t) (num_colors : ℤ)

/-- Embedding of _compute_tri_colors (lines 68-78): one color index per
triangle, in triangle order.  Python raises ZeroDivisionError at the
first loop iteration when layer_height is 0 (in z / layer_height) or
num_colors is 0 (in layer_idx % num_colors); with no triangles the loop
body never runs and the empty list is returned. -/
def compute_tri_colors (vertices : List Vertex) (faces : List Tri)
    (layer_height : ℚ) (num_colors : ℕ) : Except PyErr (List ℤ) :=
  if (layer_height = 0 ∨ num_colors = 0) ∧ faces ≠ [] then
    .error .zeroDivisionError
  else
    .ok (faces.map (triColor vertices layer_height num_colors))

/-- Uppercase hexadecimal digit for a value below 16. -/
def hexDigitU (n : ℕ) : Char :=
  if n < 10 then Char.ofNat (48 + n) else Char.ofNat (55 + n)

/-- Fuel-driven accumulator loop producing the base-16 digits of n,
most significant first. -/
def toHexUAux : ℕ → ℕ → List Char → List Char
  | 0, _, acc => acc
  | fuel + 1, n, acc =>
    if n = 0 then acc else toHexUAux fuel (n / 16) (hexDigitU (n % 16) :: acc)

/-- Uppercase, unpadded hexadecimal representation of a natural
number, as produced by Python's format(n, "X") for non-negative n. -/
def toHexU (n : ℕ) : String :=
  if n = 0 then "0" else ⟨toHexUAux (n + 1) n []⟩

/-- Python's format(n, "X") on an arbitrary integer: a minus sign
followed by the digits of the absolute value when negative. -/
def formatX (n : ℤ) : String :=
  if n < 0 then "-" ++ toHexU (-n).toNat else toHexU n.toNat

/-- Embedding of _encode_paint_color (lines 23-33): state is the 1-based
extruder index and the value is format(state << 2, "X"); the shift by 2
is multiplication by 4. -/
def encode_paint_color (extruder_idx : ℤ) : String :=
  formatX ((extruder_idx + 1) * 4)

mutual
/-- XML element: tag, attribute list (document order), optional text
content, children.  Models the ElementTree view of the 3MF model
document used by _inject_paint_colors. -/
inductive XML where
  | elem (tag : String) (attrs : List (String × String)) (txt : Option String) (children : XMLList)

/-- List of XML elements (mutual companion of XML). -/
inductive XMLList where
  | nil
  | cons (head : XML) (tail : XMLList)
end

/-- Namespace of the 3MF core spec (NS_3MF, line 81). -/
def NS_3MF : String :=
  "http://schemas.microsoft.com/3dmanufacturing/core/2015/02"

/-- Fully qualified triangle tag as ElementTree writes it. -/
def triangleTag : String := "\x7b" ++ NS_3MF ++ "\x7d" ++ "triangle"

/-- Fully qualified metadata tag as ElementTree writes it. -/
def metadataTag : String := "\x7b" ++ NS_3MF ++ "\x7d" ++ "metadata"

/-- ElementTree's Element.set on an attribute dictionary: replace the
value in place if the key is present, else append the pair. -/
def setAttr (attrs : List (String × String)) (key val : String) :
    List (String × String) :=
  if attrs.any (fun p => p.1 = key) then
    attrs.map (fun p => if p.1 = key then (key, val) else p)
  else attrs ++ [(key, val)]

/-- Embedding of the painting loop of _inject_paint_colors (lines
104-110) over a list of elements: root.iter visits elements in document
order (each element before its descendants); each triangle-tagged
element consumes the next color while colors remain, elements past the
assignment's length are left untouched.  Returns the rewritten elements
and the unconsumed colors. -/
def paintList : XMLList → List ℤ → XMLList × List ℤ
  | .nil, cols => (.nil, cols)
  | .cons (.elem tag attrs txt children) xs, cols =>
    let step : List (String × String) × List ℤ :=
      if tag = triangleTag then
        match cols with
        | [] => (attrs, [])
        | c :: rest => (setAttr attrs "paint_color" (encode_paint_color c), rest)
      else (attrs, cols)
    let rc := paintList children step.2
    let rx := paintList xs rc.2
    (.cons (.elem tag step.1 txt rc.1) rx.1, rx.2)

/-- Painting loop applied to the document root. -/
def paintElem (x : XML) (cols : List ℤ) : XML × List ℤ :=
  match x with
  | .elem tag attrs txt children =>
    let step : List (String × String) × List ℤ :=
      if tag = triangleTag then
        match cols with
        | [] => (attrs, [])
        | c :: rest => (setAttr attrs "paint_color" (encode_paint_color c), rest)
      else (attrs, cols)
    let rc := paintList children step.2
    (.elem tag step.1 txt rc.1, rc.2)

/-- Attribute lists of the triangle-tagged elements of a forest, in
document order. -/
def triAttrsList : XMLList → List (List (String × String))
  | .nil => []
  | .cons (.elem tag attrs _ children) xs =>
    ((if tag = triangleTag then [attrs] else []) ++ triAttrsList children)
      ++ triAttrsList xs

/-- Attribute lists of the triangle-tagged elements of a document, in
document order. -/
def triAttrs : XML → List (List (String × String))
  | .elem tag attrs _ children =>
    (if tag = triangleTag then [attrs] else []) ++ triAttrsList children

/-- Concatenation of element lists. -/
def appendX : XMLList → XMLList → XMLList
  | .nil, ys => ys
  | .cons x xs, ys => .cons x (appendX xs ys)

/-- The metadata element appended by lines 112-115: name
BambuStudio:MmPaintingVersion with text "0". -/
def metadataElem : XML :=
  .elem metadataTag [("name", "BambuStudio:MmPaintingVersion")] (some "0") .nil

/-- ET.SubElement(root, metadata): append the metadata element to the
root's children (lines 112-115). -/
def addMeta : XML → XML
  | .elem tag attrs txt children =>
    .elem tag attrs txt (appendX children (.cons metadataElem .nil))

/-- Archive entry name of the model document. -/
def modelPath : String := "3D/3dmodel.model"

/-- Embedding of _inject_paint_colors (lines 84-122).  The archive is a
list of named entries in zip directory order; reading a missing model
document raises KeyError (zin.read), an unparseable one raises
ElementTree's ParseError.  The output archive holds the rewritten model
document first (line 120) followed by every other entry unchanged in
order (lines 88-91 and 121-122).  XML parsing and serialization are
ElementTree's and enter as parameters. -/
def inject_paint_colors (parseXML : String → Option XML)
    (serializeXML : XML → String) (archive : List (String × String))
    (tri_colors : List ℤ) : Except PyErr (List (String × String)) :=
  match List.lookup modelPath archive with
  | none => .error (.keyError modelPath)
  | some modelData =>
    match parseXML modelData with
    | none => .error .xmlParseError
    | some root =>
      let others := archive.filter (fun e => e.1 != modelPath)
      let painted := (paintElem root tri_colors).1
      .ok ((modelPath, serializeXML (addMeta painted)) :: others)

/-- Embedding of export_multicolor_3mf (lines 125-163), value level.
External steps are parameters: stlMesh is the result of the STL round
trip through build123d and _read_stl_mesh (none models the zero-mesh
RuntimeError of line 45), basePackage is the base 3MF produced by
_write_basic_3mf via lib3mf, parseXML/serializeXML are ElementTree.
The code validates only the color count (lines 145-146); colors
default to red and blue when not supplied (lines 143-144) and are
afterwards used solely through len(colors) (line 157).  The on-disk
behavior of the same function is modelled separately by exportTrace. -/
def export_multicolor_3mf (stlMesh : Option (List Vertex × List Tri))
    (basePackage : List Vertex → List Tri → List (String × String))
    (parseXML : String → Option XML) (serializeXML : XML → String)
    (layer_height : ℚ) (colors : Option (List String)) :
    Except PyErr (List (String × String)) :=
  let cs := colors.getD ["#FF0000", "#0000FF"]
  if cs.length < 2 then
    .error (.valueError "Need at least two colours for alternating layers")
  else
    match stlMesh with
    | none => .error (.runtimeError "No mesh found")
    | some (vertices, faces) =>
      match compute_tri_colors vertices faces layer_height cs.length with
      | .error e => .error e
      | .ok tri_colors =>
        inject_paint_colors parseXML serializeXML
          (basePackage vertices faces) tri_colors

/-- File-system operations performed by the exporter: temp-file
creation, a complete write, opening a zip archive for writing
(truncates the target), closing it (contents become complete), and
deletion. -/
inductive FOp where
  | create (path : String)
  | writeAll (path : String)
  | openW (path : String)
  | closeW (path : String)
  | unlink (path : String)
deriving DecidableEq

/-- Observable state of a path: absent, opened-for-writing (an
incomplete, partially written file), or a complete file. -/
inductive FileSt where
  | absent
  | opened
  | complete
deriving DecidableEq

/-- Effect of one file operation on the file-system state. -/
def applyOp (fs : String → FileSt) : FOp → String → FileSt
  | .create p, q => if q = p then .complete else fs q
  | .writeAll p, q => if q = p then .complete else fs q
  | .openW p, q => if q = p then .opened else fs q
  | .closeW p, q => if q = p then .complete else fs q
  | .unlink p, q => if q = p then .absent else fs q

/-- Run a list of file operations from an initial state. -/
def runOps (ops : List FOp) (fs : String → FileSt) : String → FileSt :=
  ops.foldl applyOp fs

/-- File-system trace of export_multicolor_3mf (lines 150-163) on the
successful path: create the temp STL (150-151), write it (152), read it
back (154, no state change), delete it (155), create the temp base 3MF
(159-160), write it (161), then _inject_paint_colors opens the output
path directly for writing, writes the entries and closes it (119-122),
and finally the temp 3MF is deleted (163).  The function installs no
exception handler, so a failure after k operations aborts with exactly
the first k operations performed: every proper prefix of this trace is
a possible exit state. -/
def exportTrace (tmp_stl tmp_3mf out : String) : List FOp :=
  [.create tmp_stl, .writeAll tmp_stl, .unlink tmp_stl,
   .create tmp_3mf, .writeAll tmp_3mf,
   .openW out, .closeW out,
   .unlink tmp_3mf]

deriving instance DecidableEq for Except

/-- Positional painting on a list of triangle attribute lists: the Nth
attribute list receives the Nth encoded color; entries past the end of
the color list are unchanged.  This is the specification against which
the document rewrite of paintList is proved. -/
def markAttrs : List (List (String × String)) → List ℤ →
    List (List (String × String))
  | [], _ => []
  | a :: rest, [] => a :: markAttrs rest []
  | a :: rest, c :: cs =>
    setAttr a "paint_color" (encode_paint_color c) :: markAttrs rest cs

/-- Concrete triangle element used by witnesses. -/
def tri1 : XML := .elem triangleTag [("v1", "0")] none .nil

/-- Second concrete triangle element used by witnesses. -/
def tri2 : XML := .elem triangleTag [("v1", "1")] none .nil

/-- Concrete two-triangle model document used by witnesses. -/
def docRoot : XML := .elem "model" [] none (.cons tri1 (.cons tri2 .nil))

/-- Concrete base archive used by witnesses: the model document plus
one unrelated entry. -/
def docArchive : List (String × String) := [(modelPath, "doc"), ("extra", "bytes")]

/-- Concrete parser fixture: every entry parses to docRoot. -/
def parseFix : String → Option XML := fun _ => some docRoot

/-- Concrete serializer fixture. -/
def serFix : XML → String := fun _ => "xml"

/-- Concrete base-package builder fixture. -/
def baseFix : List Vertex → List Tri → List (String × String) := fun _ _ => docArchive

/-- markAttrs preserves the number of triangle attribute lists. -/
theorem markAttrs_length (l : List (List (String × String))) (cols : List ℤ) :
    (markAttrs l cols).length = l.length := by
  induction l generalizing cols with
  | nil => simp [markAttrs]
  | cons a rest ih => cases cols <;> simp [markAttrs, ih]

/-- Entries of markAttrs below the color count: the Nth attribute list
gains the paint attribute encoding the Nth color. -/
theorem markAttrs_getD_lt (l : List (List (String × String))) (cols : List ℤ)
    (i : ℕ) (hi : i < l.length) (hc : i < cols.length) :
    (markAttrs l cols).getD i [] =
      setAttr (l.getD i []) "paint_color" (encode_paint_color (cols.getD i 0)) := by
  induction l generalizing cols i with
  | nil => simp at hi
  | cons a rest ih =>
    cases cols with
    | nil => simp at hc
    | cons c cs =>
      cases i with
      | zero => simp [markAttrs]
      | succ n =>
        simpa [markAttrs] using ih cs n (by simpa using hi) (by simpa using hc)

/-- Entries of markAttrs at or past the color count are unchanged. -/
theorem markAttrs_getD_ge (l : List (List (String × String))) (cols : List ℤ)
    (i : ℕ) (hc : cols.length ≤ i) :
    (markAttrs l cols).getD i [] = l.getD i [] := by
  induction l generalizing cols i with
  | nil => simp [markAttrs]
  | cons a rest ih =>
    cases cols with
    | nil =>
      cases i with
      | zero => simp [markAttrs]
      | succ n => simpa [markAttrs] using ih [] n (by simp)
    | cons c cs =>
      cases i with
      | zero => simp at hc
      | succ n => simpa [markAttrs] using ih cs n (by simpa using hc)

/-- markAttrs splits over list append, the second part consuming the
colors left over by the first. -/
theorem markAttrs_append (l1 l2 : List (List (String × String))) (cols : List ℤ) :
    markAttrs (l1 ++ l2) cols =
      markAttrs l1 cols ++ markAttrs l2 (cols.drop l1.length) := by
  induction l1 generalizing cols with
  | nil => simp [markAttrs]
  | cons a rest ih =>
    cases cols with
    | nil => simp [markAttrs, ih]
    | cons c cs => simp [markAttrs, ih]

/-- Correctness of the painting loop on forests: the triangle attribute
lists of the rewritten forest are exactly markAttrs of the original
ones, and the leftover colors are the ones past the forest's triangle
count. -/
theorem paintList_spec : ∀ (xs : XMLList) (cols : List ℤ),
    triAttrsList (paintList xs cols).1 = markAttrs (triAttrsList xs) cols ∧
    (paintList xs cols).2 = cols.drop (triAttrsList xs).length
  | .nil, cols => by simp [paintList, triAttrsList, markAttrs]
  | .cons (.elem tag attrs txt children) xs, cols => by
    by_cases htag : tag = triangleTag
    · cases cols with
      | nil =>
        obtain ⟨hc1, hc2⟩ := paintList_spec children []
        simp only [List.drop_nil] at hc2
        obtain ⟨hx1, hx2⟩ := paintList_spec xs (paintList children []).2
        rw [hc2] at hx1 hx2
        simp only [paintList, htag, if_true, triAttrsList]
        constructor
        · simp [hc1, hc2, hx1, markAttrs_append, markAttrs, List.append_assoc]
        · simp [hc2, hx2, markAttrs_length]
      | cons c cs =>
        obtain ⟨hc1, hc2⟩ := paintList_spec children cs
        obtain ⟨hx1, hx2⟩ := paintList_spec xs (paintList children cs).2
        rw [hc2] at hx1 hx2
        simp only [paintList, htag, if_true, triAttrsList]
        constructor
        · simp [hc1, hc2, hx1, markAttrs_append, markAttrs, List.append_assoc]
        · simp [hc2, hx2, markAttrs_length, List.drop_drop]
    · obtain ⟨hc1, hc2⟩ := paintList_spec children cols
      obtain ⟨hx1, hx2⟩ := paintList_spec xs (paintList children cols).2
      rw [hc2] at hx1 hx2
      simp only [paintList, htag, if_false, triAttrsList]
      constructor
      · simp [hc1, hc2, hx1, markAttrs_append, List.append_assoc]
      · simp [hc2, hx2, markAttrs_length, List.drop_drop]

/-- Correctness of the painting loop on a whole document. -/
theorem paintElem_spec (x : XML) (cols : List ℤ) :
    triAttrs (paintElem x cols).1 = markAttrs (triAttrs x) cols ∧
    (paintElem x cols).2 = cols.drop (triAttrs x).length := by
  cases x with
  | elem tag attrs txt children =>
    by_cases htag : tag = triangleTag
    · cases cols with
      | nil =>
        obtain ⟨hc1, hc2⟩ := paintList_spec children []
        simp only [List.drop_nil] at hc2
        simp only [paintElem, htag, if_true, triAttrs]
        constructor
        · simp [hc1, markAttrs_append, markAttrs]
        · simp [hc2]
      | cons c cs =>
        obtain ⟨hc1, hc2⟩ := paintList_spec children cs
        simp only [paintElem, htag, if_true, triAttrs]
        constructor
        · simp [hc1, markAttrs_append, markAttrs]
        · simp [hc2]
    · obtain ⟨hc1, hc2⟩ := paintList_spec children cols
      simp only [paintElem, htag, if_false, triAttrs]
      constructor
      · simp [hc1, markAttrs_append]
      · simp [hc2]

/-- triAttrsList distributes over forest concatenation. -/
theorem triAttrsList_appendX : ∀ (xs ys : XMLList),
    triAttrsList (appendX xs ys) = triAttrsList xs ++ triAttrsList ys
  | .nil, ys => by simp [appendX, triAttrsList]
  | .cons (.elem tag attrs txt children) xs, ys => by
    simp [appendX, triAttrsList, triAttrsList_appendX xs ys, List.append_assoc]

/-- Appending the painting-version metadata element does not change the
triangle elements of the document. -/
theorem triAttrs_addMeta (x : XML) : triAttrs (addMeta x) = triAttrs x := by
  cases x with
  | elem tag attrs txt children =>
    have hne : metadataTag ≠ triangleTag := by decide
    simp [addMeta, triAttrs, triAttrsList_appendX, triAttrsList, metadataElem, hne]

/-- Looking up a name other than the removed one in a filtered entry
list gives the same result as in the original list. -/
theorem lookup_filter_ne (l : List (String × String)) (name m : String)
    (hn : name ≠ m) :
    List.lookup name (l.filter (fun e => e.1 != m)) = List.lookup name l := by
  induction l with
  | nil => simp
  | cons e rest ih =>
    by_cases he : e.1 = m
    · have hb : (name == m) = false := by simp [hn]
      have hb2 : (name == e.1) = false := by simp [he, hn]
      simp [List.filter_cons, he, List.lookup, hb, hb2, ih]
    · by_cases hne : name = e.1
      · simp [List.filter_cons, he, List.lookup, hne]
      · have : (name == e.1) = false := by simp [hne]
        simp [List.filter_cons, he, List.lookup, this, ih]

/-- Filtering is idempotent. -/
theorem filter_self_eq (l : List (String × String)) (p : String × String → Bool) :
    (l.filter p).filter p = l.filter p := by
  induction l with
  | nil => rfl
  | cons e rest ih => by_cases hp : p e <;> simp [List.filter_cons, hp, ih]

/-- C1 counterexample: a triangle whose centroid is z = -0.3 with
layer_height 0.2 gets layer index int(-1.5) = -1 in the code, while the
claimed floor(-1.5) is -2; the layer index is not the mathematical
floor of centroidZ / layer_height. -/
theorem C1_counterexample :
    triLayerIdx [⟨0, 0, -3/10⟩] (1/5) ⟨0, 0, 0⟩ ≠
      ⌊centroidZ [⟨0, 0, -3/10⟩] ⟨0, 0, 0⟩ / (1/5)⌋ := by
  have h1 : centroidZ [⟨0, 0, -3/10⟩] ⟨0, 0, 0⟩ = -3/10 := by
    norm_num [centroidZ, vtxAt]
  rw [triLayerIdx, h1, pyInt, if_neg (by norm_num)]
  rw [show ((-3/10 : ℚ) / (1/5)) = -3/2 by norm_num]
  rw [show ⌈(-3/2 : ℚ)⌉ = -1 from by rw [Int.ceil_eq_iff]; constructor <;> norm_num]
  rw [show ⌊(-3/2 : ℚ)⌋ = -2 from by rw [Int.floor_eq_iff]; constructor <;> norm_num]
  decide

/-- C1 (amended): for layer_height > 0 the layer index is the
truncation toward zero of centroidZ / layer_height (floor for
non-negative centroids, ceiling for negative ones, Python int()); a
centroid exactly at z = k * layer_height is still assigned layer k for
every integer k, positive or negative, since the quotient is then the
integer k itself. -/
theorem C1_layer_index_truncates (vertices : List Vertex) (t : Tri)
    (layer_height : ℚ) (k : ℤ) (hpos : 0 < layer_height) :
    (triLayerIdx vertices layer_height t =
      if 0 ≤ centroidZ vertices t then ⌊centroidZ vertices t / layer_height⌋
      else ⌈centroidZ vertices t / layer_height⌉) ∧
    (centroidZ vertices t = (k : ℚ) * layer_height →
      triLayerIdx vertices layer_height t = k) := by
  constructor
  · by_cases hc : 0 ≤ centroidZ vertices t
    · rw [triLayerIdx, pyInt, if_pos (div_nonneg hc hpos.le), if_pos hc]
    · rw [triLayerIdx, pyInt, if_neg, if_neg hc]
      push_neg at hc ⊢
      exact div_neg_of_neg_of_pos hc hpos
  · intro hk
    rw [triLayerIdx, hk, mul_div_cancel_right₀ _ hpos.ne', pyInt]
    by_cases h0 : 0 ≤ ((k : ℚ))
    · rw [if_pos h0, Int.floor_intCast]
    · rw [if_neg h0, Int.ceil_intCast]

/-- C1 witness: centroid z = -0.4 with layer_height 0.2 sits exactly on
the boundary k = -2 and is assigned layer -2. -/
theorem C1_witness : triLayerIdx [⟨0, 0, -2/5⟩] (1/5) ⟨0, 0, 0⟩ = -2 :=
  (C1_layer_index_truncates [⟨0, 0, -2/5⟩] ⟨0, 0, 0⟩ (1/5) (-2) (by norm_num)).2
    (by norm_num [centroidZ, vtxAt])

/-- C3: the paint attribute value for a 0-based color index c is the
uppercase unpadded hexadecimal rendering of (c+1) shifted left by two
bits; indices 0..3 give "4", "8", "C", "10", and every index below 4 is
encoded into that exact four-element set. -/
theorem C3_paint_encoding :
    (∀ c : ℤ, 0 ≤ c → encode_paint_color c = toHexU ((c + 1) * 4).toNat) ∧
    encode_paint_color 0 = "4" ∧ encode_paint_color 1 = "8" ∧
    encode_paint_color 2 = "C" ∧ encode_paint_color 3 = "10" ∧
    ∀ c : ℤ, 0 ≤ c → c < 4 →
      encode_paint_color c ∈ (["4", "8", "C", "10"] : List String) := by
  refine ⟨?_, by decide, by decide, by decide, by decide, ?_⟩
  · intro c hc
    rw [encode_paint_color, formatX, if_neg (by omega)]
  · intro c h0 h4
    interval_cases c <;> decide

/-- C3 witness: color index 2 is encoded as an element of the four
admissible values. -/
theorem C3_witness :
    encode_paint_color 2 ∈ (["4", "8", "C", "10"] : List String) :=
  C3_paint_encoding.2.2.2.2.2 2 (by decide) (by decide)

/-- C8: for positive layer height and at least two colors the color
assignment succeeds, returns one index per triangle in triangle order,
and every index lies in [0, num_colors), also for negative centroids. -/
theorem C8_assignment_total_in_range (vertices : List Vertex)
    (faces : List Tri) (layer_height : ℚ) (num_colors : ℕ)
    (hh : 0 < layer_height) (hn : 2 ≤ num_colors) :
    compute_tri_colors vertices faces layer_height num_colors =
      .ok (faces.map (triColor vertices layer_height num_colors)) ∧
    (faces.map (triColor vertices layer_height num_colors)).length = faces.length ∧
    ∀ t ∈ faces, 0 ≤ triColor vertices layer_height num_colors t ∧
      triColor vertices layer_height num_colors t < (num_colors : ℤ) := by
  have hpos : (0 : ℤ) < (num_colors : ℤ) := by exact_mod_cast (by omega : 0 < num_colors)
  refine ⟨?_, List.length_map _ _, ?_⟩
  · rw [compute_tri_colors, if_neg]
    rintro ⟨h0 | h0, -⟩
    · exact hh.ne' h0
    · omega
  · intro t _
    exact ⟨Int.fmod_nonneg' _ hpos, Int.fmod_lt_of_pos _ hpos⟩

/-- C8 witness: a one-triangle mesh with centroid z = -0.3 gets the
color list computed by triColor, of the right length. -/
theorem C8_witness :
    compute_tri_colors [⟨0, 0, -3/10⟩] [⟨0, 0, 0⟩] (1/5) 2 =
      .ok ([⟨0, 0, 0⟩].map (triColor [⟨0, 0, -3/10⟩] (1/5) 2)) :=
  (C8_assignment_total_in_range [⟨0, 0, -3/10⟩] [⟨0, 0, 0⟩] (1/5) 2
    (by norm_num) (by norm_num)).1

/-- C4: injection assigns the Nth encoded color to the Nth triangle
element in document order; with fewer colors than triangle elements the
injection still succeeds, exactly the first N triangle elements gain
the paint attribute and all later ones keep their attributes
unchanged. -/
theorem C4_positional_injection (parseXML : String → Option XML)
    (serializeXML : XML → String) (archive : List (String × String))
    (tri_colors : List ℤ) (modelData : String) (root : XML)
    (hlook : List.lookup modelPath archive = some modelData)
    (hparse : parseXML modelData = some root) :
    (inject_paint_colors parseXML serializeXML archive tri_colors).isOk = true ∧
    triAttrs (addMeta (paintElem root tri_colors).1) =
      markAttrs (triAttrs root) tri_colors ∧
    (markAttrs (triAttrs root) tri_colors).length = (triAttrs root).length ∧
    (∀ i, i < (triAttrs root).length → i < tri_colors.length →
      (markAttrs (triAttrs root) tri_colors).getD i [] =
        setAttr ((triAttrs root).getD i []) "paint_color"
          (encode_paint_color (tri_colors.getD i 0))) ∧
    (∀ i, tri_colors.length ≤ i →
      (markAttrs (triAttrs root) tri_colors).getD i [] =
        (triAttrs root).getD i []) := by
  refine ⟨?_, ?_, markAttrs_length _ _,
    fun i h1 h2 => markAttrs_getD_lt _ _ i h1 h2,
    fun i h => markAttrs_getD_ge _ _ i h⟩
  · simp [inject_paint_colors, hlook, hparse, Except.isOk, Except.toBool]
  · rw [triAttrs_addMeta, (paintElem_spec root tri_colors).1]

/-- C4 witness: a two-triangle document with a one-color assignment is
injected without error. -/
theorem C4_witness :
    (inject_paint_colors parseFix serFix docArchive [0]).isOk = true :=
  (C4_positional_injection parseFix serFix docArchive [0] "doc" docRoot
    (by decide) rfl).1

/-- C5: when injection succeeds, every archive entry other than the
model document is carried over unchanged: the non-model entries of the
output equal those of the input in order and content, and lookups of
any other name agree. -/
theorem C5_other_entries_preserved (parseXML : String → Option XML)
    (serializeXML : XML → String) (archive : List (String × String))
    (tri_colors : List ℤ) (out : List (String × String))
    (h : inject_paint_colors parseXML serializeXML archive tri_colors = .ok out) :
    out.filter (fun e => e.1 != modelPath) =
      archive.filter (fun e => e.1 != modelPath) ∧
    ∀ name, name ≠ modelPath →
      List.lookup name out = List.lookup name archive := by
  cases hl : List.lookup modelPath archive with
  | none => simp [inject_paint_colors, hl] at h
  | some d =>
    cases hp : parseXML d with
    | none => simp [inject_paint_colors, hl, hp] at h
    | some root =>
      simp only [inject_paint_colors, hl, hp, Except.ok.injEq] at h
      rw [← h]
      constructor
      · have hhead : ((modelPath, serializeXML (addMeta (paintElem root tri_colors).1)).1
            != modelPath) = false := by simp
        simp only [List.filter_cons, hhead]
        exact filter_self_eq archive _
      · intro name hn
        have hb : (name == modelPath) = false := by simp [hn]
        simp only [List.lookup, hb]
        exact lookup_filter_ne archive name modelPath hn

/-- C5 witness: the unrelated entry of the concrete archive is found
unchanged after injection. -/
theorem C5_witness :
    List.lookup "extra" [(modelPath, "xml"), ("extra", "bytes")] =
      List.lookup "extra" docArchive :=
  (C5_other_entries_preserved parseFix serFix docArchive [0]
    [(modelPath, "xml"), ("extra", "bytes")] (by decide)).2 "extra" (by decide)

/-- Evaluation helper: on a concrete one-triangle mesh at z = 0, with a
negative layer height and any two-entry color list, the pipeline runs
to completion and produces the concrete output archive. -/
theorem export_fix_ok (cs : List String) (hcs : cs.length = 2) :
    export_multicolor_3mf (some ([⟨0, 0, 0⟩], [⟨0, 0, 0⟩])) baseFix parseFix
      serFix (-1) (some cs) = .ok [(modelPath, "xml"), ("extra", "bytes")] := by
  have hc : compute_tri_colors [⟨0, 0, 0⟩] [⟨0, 0, 0⟩] (-1) 2 = .ok [0] := by
    norm_num [compute_tri_colors, triColor, triLayerIdx, centroidZ, vtxAt,
      pyInt, Int.zero_fmod]
  simp only [export_multicolor_3mf, Option.getD, hcs]
  rw [if_neg (by norm_num)]
  rw [hc]
  decide

/-- Every error produced by compute_tri_colors is ZeroDivisionError. -/
theorem compute_tri_colors_error_eq (vertices : List Vertex)
    (faces : List Tri) (layer_height : ℚ) (num_colors : ℕ) (e : PyErr)
    (hc : compute_tri_colors vertices faces layer_height num_colors = .error e) :
    e = .zeroDivisionError := by
  unfold compute_tri_colors at hc
  split at hc
  · injection hc with h
    exact h.symm
  · exact absurd hc (by simp)

/-- Injection never fails with InvalidColorError. -/
theorem inject_ne_invalidColor (parseXML : String → Option XML)
    (serializeXML : XML → String) (archive : List (String × String))
    (tri_colors : List ℤ) (entry : String) :
    inject_paint_colors parseXML serializeXML archive tri_colors ≠
      .error (.invalidColorError entry) := by
  cases hl : List.lookup modelPath archive with
  | none => simp [inject_paint_colors, hl]
  | some d =>
    cases hp : parseXML d with
    | none => simp [inject_paint_colors, hl, hp]
    | some root => simp [inject_paint_colors, hl, hp]

/-- C6 counterexample: with colors red and blue, layer_height = -1 is
accepted and the export succeeds, and layer_height = 0 fails with
ZeroDivisionError during color computation; neither a zero nor a
negative layer height is rejected with ConfigurationError. -/
theorem C6_counterexample :
    export_multicolor_3mf (some ([⟨0, 0, 0⟩], [⟨0, 0, 0⟩])) baseFix parseFix
        serFix (-1) (some ["#FF0000", "#0000FF"]) ≠
      .error .configurationError ∧
    export_multicolor_3mf (some ([⟨0, 0, 0⟩], [⟨0, 0, 0⟩])) baseFix parseFix
        serFix 0 (some ["#FF0000", "#0000FF"]) ≠
      .error .configurationError ∧
    export_multicolor_3mf (some ([⟨0, 0, 0⟩], [⟨0, 0, 0⟩])) baseFix parseFix
        serFix 0 (some ["#FF0000", "#0000FF"]) = .error .zeroDivisionError := by
  have hok := export_fix_ok ["#FF0000", "#0000FF"] (by decide)
  have hzero : export_multicolor_3mf (some ([⟨0, 0, 0⟩], [⟨0, 0, 0⟩])) baseFix
      parseFix serFix 0 (some ["#FF0000", "#0000FF"]) =
      .error .zeroDivisionError := by
    have hc : compute_tri_colors [⟨0, 0, 0⟩] [⟨0, 0, 0⟩] 0 2 =
        .error .zeroDivisionError := by
      norm_num [compute_tri_colors]
    simp only [export_multicolor_3mf, Option.getD, List.length_cons,
      List.length_nil]
    rw [if_neg (by norm_num)]
    rw [show ((0 : ℕ) + 1 + 1) = 2 from rfl] at *
    rw [hc]
  exact ⟨by rw [hok]; decide, by rw [hzero]; decide, hzero⟩

/-- C6 (amended): the code validates only the color count: fewer than
two colors raises ValueError (not ConfigurationError) before the mesh
is touched; layer_height is never validated, a zero layer height
surfaces as ZeroDivisionError from the color computation (after the
temporary-file round trip), and a negative layer height is accepted
and the export proceeds normally. -/
theorem C6_only_color_count_validated :
    (∀ stlMesh basePackage parseXML serializeXML (layer_height : ℚ)
        (cs : List String), cs.length < 2 →
      export_multicolor_3mf stlMesh basePackage parseXML serializeXML
          layer_height (some cs) =
        .error (.valueError "Need at least two colours for alternating layers")) ∧
    (∀ basePackage parseXML serializeXML (vertices : List Vertex)
        (faces : List Tri) (cs : List String), 2 ≤ cs.length → faces ≠ [] →
      export_multicolor_3mf (some (vertices, faces)) basePackage parseXML
          serializeXML 0 (some cs) = .error .zeroDivisionError) ∧
    export_multicolor_3mf (some ([⟨0, 0, 0⟩], [⟨0, 0, 0⟩])) baseFix parseFix
        serFix (-1) (some ["#FF0000", "#0000FF"]) =
      .ok [(modelPath, "xml"), ("extra", "bytes")] := by
  refine ⟨?_, ?_, export_fix_ok ["#FF0000", "#0000FF"] (by decide)⟩
  · intro stlMesh basePackage parseXML serializeXML layer_height cs hlt
    simp only [export_multicolor_3mf, Option.getD]
    rw [if_pos hlt]
  · intro basePackage parseXML serializeXML vertices faces cs hlen hne
    have hc : compute_tri_colors vertices faces 0 cs.length =
        .error .zeroDivisionError := by
      rw [compute_tri_colors, if_pos ⟨Or.inl rfl, hne⟩]
    simp only [export_multicolor_3mf, Option.getD]
    rw [if_neg (by omega)]
    rw [hc]

/-- C6 witness: a zero layer height on a nonempty mesh yields
ZeroDivisionError. -/
theorem C6_witness :
    export_multicolor_3mf (some ([⟨0, 0, 0⟩], [⟨0, 0, 0⟩])) baseFix parseFix
        serFix 0 (some ["#FF0000", "#0000FF"]) = .error .zeroDivisionError :=
  C6_only_color_count_validated.2.1 baseFix parseFix serFix [⟨0, 0, 0⟩]
    [⟨0, 0, 0⟩] ["#FF0000", "#0000FF"] (by decide) (by decide)

/-- C7 counterexample: entries "xyz" and "12" are not six-digit hex
colors, yet the export succeeds and in particular does not fail with
an InvalidColorError naming either entry. -/
theorem C7_counterexample :
    export_multicolor_3mf (some ([⟨0, 0, 0⟩], [⟨0, 0, 0⟩])) baseFix parseFix
        serFix (-1) (some ["xyz", "12"]) =
      .ok [(modelPath, "xml"), ("extra", "bytes")] ∧
    export_multicolor_3mf (some ([⟨0, 0, 0⟩], [⟨0, 0, 0⟩])) baseFix parseFix
        serFix (-1) (some ["xyz", "12"]) ≠
      .error (.invalidColorError "xyz") ∧
    export_multicolor_3mf (some ([⟨0, 0, 0⟩], [⟨0, 0, 0⟩])) baseFix parseFix
        serFix (-1) (some ["xyz", "12"]) ≠
      .error (.invalidColorError "12") := by
  have hok := export_fix_ok ["xyz", "12"] (by decide)
  exact ⟨hok, by rw [hok]; decide, by rw [hok]; decide⟩

/-- C7 (amended): the pipeline never inspects the color strings'
contents and possesses no color validation: no invocation whatsoever
fails with InvalidColorError. -/
theorem C7_no_color_validation (stlMesh : Option (List Vertex × List Tri))
    (basePackage : List Vertex → List Tri → List (String × String))
    (parseXML : String → Option XML) (serializeXML : XML → String)
    (layer_height : ℚ) (colors : Option (List String)) (entry : String) :
    export_multicolor_3mf stlMesh basePackage parseXML serializeXML
      layer_height colors ≠ .error (.invalidColorError entry) := by
  intro h
  simp only [export_multicolor_3mf] at h
  split at h
  · exact absurd h (by simp)
  · split at h
    · exact absurd h (by simp)
    · rename_i vf
      split at h
      · rename_i e hce
        have := compute_tri_colors_error_eq _ _ _ _ e hce
        subst this
        exact absurd h (by simp)
      · exact inject_ne_invalidColor _ _ _ _ entry h

/-- C7 witness: no invocation on the concrete fixtures returns
InvalidColorError for the malformed entry "xyz". -/
theorem C7_witness :
    export_multicolor_3mf (some ([⟨0, 0, 0⟩], [⟨0, 0, 0⟩])) baseFix parseFix
      serFix 1 (some ["xyz", "12"]) ≠ .error (.invalidColorError "xyz") :=
  C7_no_color_validation (some ([⟨0, 0, 0⟩], [⟨0, 0, 0⟩])) baseFix parseFix
    serFix 1 (some ["xyz", "12"]) "xyz"

/-- C10: the color strings influence the export only through the
length of the list: with the same mesh, base package, parser,
serializer, layer height and output, two color lists of equal length
(at least two entries) give identical results. -/
theorem C10_colors_only_via_length (stlMesh : Option (List Vertex × List Tri))
    (basePackage : List Vertex → List Tri → List (String × String))
    (parseXML : String → Option XML) (serializeXML : XML → String)
    (layer_height : ℚ) (colors1 colors2 : List String)
    (hlen : colors1.length = colors2.length) (htwo : 2 ≤ colors1.length) :
    export_multicolor_3mf stlMesh basePackage parseXML serializeXML
        layer_height (some colors1) =
      export_multicolor_3mf stlMesh basePackage parseXML serializeXML
        layer_height (some colors2) := by
  simp only [export_multicolor_3mf, Option.getD]
  rw [hlen]

/-- C10 witness: red/blue and two malformed strings of the same count
produce the same archive. -/
theorem C10_witness :
    export_multicolor_3mf (some ([⟨0, 0, 0⟩], [⟨0, 0, 0⟩])) baseFix parseFix
        serFix 1 (some ["#FF0000", "#0000FF"]) =
      export_multicolor_3mf (some ([⟨0, 0, 0⟩], [⟨0, 0, 0⟩])) baseFix parseFix
        serFix 1 (some ["xyz", "12"]) :=
  C10_colors_only_via_length (some ([⟨0, 0, 0⟩], [⟨0, 0, 0⟩])) baseFix parseFix
    serFix 1 ["#FF0000", "#0000FF"] ["xyz", "12"] (by decide) (by decide)

/-- C2 counterexample: the claimed property - at every possible failure
point no partially written file is observable at the output path -
fails: after the sixth operation (the injector has opened the output
archive for writing but not yet closed it) the output path holds a
partially written file. -/
theorem C2_counterexample :
    ¬ (∀ k, k ≤ (exportTrace "part.stl" "part.3mf" "out.3mf").length →
        runOps ((exportTrace "part.stl" "part.3mf" "out.3mf").take k)
          (fun _ => FileSt.absent) "out.3mf" ≠ FileSt.opened) := by
  intro hclaim
  exact hclaim 6 (by decide) (by decide)

/-- C2 (amended): the final package is written directly to the output
path, not through a temporary plus atomic rename: any failure before
the injector opens the output archive (the first five operations)
leaves the output path in its initial state, and the completed run
leaves a complete file there, but a failure while the output archive is
open (after operation six) leaves a partial file observable at the
output path. -/
theorem C2_output_not_atomic (tmp_stl tmp_3mf out : String)
    (fs0 : String → FileSt) (h1 : out ≠ tmp_stl) (h2 : out ≠ tmp_3mf) :
    (∀ k, k ≤ 5 →
      runOps ((exportTrace tmp_stl tmp_3mf out).take k) fs0 out = fs0 out) ∧
    runOps (exportTrace tmp_stl tmp_3mf out) fs0 out = FileSt.complete ∧
    runOps ((exportTrace tmp_stl tmp_3mf out).take 6) fs0 out =
      FileSt.opened := by
  refine ⟨?_, ?_, ?_⟩
  · intro k hk
    interval_cases k <;> simp [exportTrace, runOps, applyOp, h1, h2]
  · simp [exportTrace, runOps, applyOp, h1, h2]
  · simp [exportTrace, runOps, applyOp, h1, h2]

/-- C2 witness: on concrete distinct paths, the failure point inside
the final archive write leaves a partial file at the output path. -/
theorem C2_witness :
    runOps ((exportTrace "a.stl" "b.3mf" "o.3mf").take 6)
      (fun _ => FileSt.absent) "o.3mf" = FileSt.opened :=
  (C2_output_not_atomic "a.stl" "b.3mf" "o.3mf" (fun _ => FileSt.absent)
    (by decide) (by decide)).2.2

/-- C9 counterexample: the claimed property - on every exit path both
temporary artifacts are removed - fails: a failure right after the
temporary STL file is written (for example an STL with no mesh object,
the RuntimeError of _read_stl_mesh, or any read error) exits with the
temporary STL still on disk, because the unlink calls are not in any
finally block. -/
theorem C9_counterexample :
    ¬ (∀ k, k ≤ (exportTrace "tmp.stl" "tmp.3mf" "final.3mf").length →
        runOps ((exportTrace "tmp.stl" "tmp.3mf" "final.3mf").take k)
          (fun _ => FileSt.absent) "tmp.stl" = FileSt.absent ∧
        runOps ((exportTrace "tmp.stl" "tmp.3mf" "final.3mf").take k)
          (fun _ => FileSt.absent) "tmp.3mf" = FileSt.absent) := by
  intro hclaim
  exact absurd (hclaim 2 (by decide)).1 (by decide)

/-- C9 (amended): the temporary files are removed only when execution
reaches their unlink calls: the fully successful run ends with both
temporaries absent, but a failure after the temporary STL is written
and before its unlink (prefix of length 2: a failure inside
_read_stl_mesh, such as an STL yielding zero mesh objects) leaves it
on disk, and a failure while the output archive is being written
(prefix of length 6) leaves the temporary 3MF on disk.  A failure at
the color-computation point (prefix of length 3: after the STL unlink,
before the temporary 3MF is created, for example the ZeroDivisionError
of a zero layer height) leaves no temporary behind.  No cleanup
handler exists and unlink failures would propagate, not be logged. -/
theorem C9_cleanup_only_on_success (tmp_stl tmp_3mf out : String)
    (fs0 : String → FileSt) (h1 : tmp_stl ≠ tmp_3mf) (h2 : tmp_stl ≠ out)
    (h3 : tmp_3mf ≠ out) :
    runOps (exportTrace tmp_stl tmp_3mf out) fs0 tmp_stl = FileSt.absent ∧
    runOps (exportTrace tmp_stl tmp_3mf out) fs0 tmp_3mf = FileSt.absent ∧
    runOps ((exportTrace tmp_stl tmp_3mf out).take 2) fs0 tmp_stl =
      FileSt.complete ∧
    runOps ((exportTrace tmp_stl tmp_3mf out).take 6) fs0 tmp_3mf =
      FileSt.complete ∧
    runOps ((exportTrace tmp_stl tmp_3mf out).take 3) fs0 tmp_stl =
      FileSt.absent ∧
    runOps ((exportTrace tmp_stl tmp_3mf out).take 3) fs0 tmp_3mf =
      fs0 tmp_3mf := by
  refine ⟨?_, ?_, ?_, ?_, ?_, ?_⟩ <;>
    simp [exportTrace, runOps, applyOp, h1, h2, h3, h1.symm]

/-- C9 witness: on concrete distinct paths the successful run removes
the temporary STL while the length-2 failure prefix leaves it behind. -/
theorem C9_witness :
    runOps (exportTrace "t.stl" "t.3mf" "f.3mf") (fun _ => FileSt.absent)
      "t.stl" = FileSt.absent :=
  (C9_cleanup_only_on_success "t.stl" "t.3mf" "f.3mf" (fun _ => FileSt.absent)
    (by decide) (by decide) (by decide)).1
